import Mathlib

/-!
Verification development for the wikibots repository (DaxServer/wikibots).

This file gives a shallow embedding, in Lean 4, of the per-record enrichment
pipeline implemented in `src/wikibots/lib/bot.py` and the per-platform bots
(`flickr.py`, `youtube.py`, `inaturalist.py`, `pas.py`, `usace.py`), and
proves or refutes the specification claims about it.

Modelling conventions:
 -  Statements (pywikibot `Claim` objects) are records of a property id,
    a main value, qualifier and reference lists of (property, value) pairs,
    and an optional statement id (statements already stored on the wiki have
    an id; freshly built ones have none).
 -  The existing-statement index (`ClaimCollection`) is a list of statements;
    `property in collection` is membership of the property id.
 -  The fingerprint cache (Redis) is a list of keys; `redis.set(key, 1)`
    inserts the key.
 -  Python floats (coordinates, precision table) are modelled as exact
    rationals written from the decimal literals of the source.
 -  External calls (platform APIs, SPARQL queries) are parameters of the
    embedded functions: a fetch is a `FetchOutcome` value ( `ok` carries the
    parsed response, `exn` stands for any raised exception, covering network
    errors, timeouts, rate limits and unexpected response shapes); a SPARQL
    query is a function from the queried id to the list of matching items.
-/

namespace Wikibots

/-- Main value of a statement or qualifier: a string, an item (entity id), a
point in time (year, month, day, pywikibot precision number), a coordinate
(latitude, longitude, precision, as exact rationals), monolingual text,
the explicit unknown value (`somevalue` snak type), or the initial
un-targeted state of a freshly constructed `Claim`. -/
inductive ClaimValue where
  | unset : ClaimValue
  | somevalue : ClaimValue
  | str : String → ClaimValue
  | item : String → ClaimValue
  | time : Int → Nat → Nat → Nat → ClaimValue
  | coord : ℚ → ℚ → ℚ → ClaimValue
  | mono : String → String → ClaimValue
  deriving Repr, DecidableEq

/-- A statement: pywikibot `Claim`.  `id` is the statement GUID, present on
statements loaded from the wiki and absent (`none`) on newly built ones. -/
structure Claim where
  prop : String
  value : ClaimValue := ClaimValue.unset
  qualifiers : List (String × ClaimValue) := []
  references : List (String × ClaimValue) := []
  id : Option String := none
  deriving Repr, DecidableEq

/-- The existing-statement index: pywikibot `ClaimCollection`. -/
abbrev ClaimCollection := List Claim

/-- `property in collection` (membership test used by every builder guard). -/
def hasProp (cc : ClaimCollection) (p : String) : Bool :=
  cc.any (fun c => c.prop = p)

/-- `collection[property]`: the statements carrying a given property. -/
def getProp (cc : ClaimCollection) (p : String) : List Claim :=
  cc.filter (fun c => c.prop = p)

/-- `claim.addQualifier(q)`: appends one qualifier. -/
def addQualifier (c : Claim) (q : String × ClaimValue) : Claim :=
  { c with qualifiers := c.qualifiers ++ [q] }

/-- `property in claim.qualifiers`. -/
def qualifierHasProp (c : Claim) (p : String) : Bool :=
  c.qualifiers.any (fun q => q.1 = p)

/-- The fingerprint cache (Redis database): the set of keys present. -/
abbrev RedisState := List String

/-- `redis.set(key, 1)`. -/
def redisSet (r : RedisState) (key : String) : RedisState :=
  if key ∈ r then r else key :: r

/-! String primitives.  The Python string operations the bots use
(`str.strip`, `str.lower`, prefix tests, leading-digit runs) are modelled
over the character list of the string, so that every embedded function
evaluates on concrete inputs by kernel reduction. -/

/-- Python `str.strip()`: drop whitespace from both ends. -/
def pyStrip (s : String) : String :=
  String.mk
    (((s.toList.dropWhile Char.isWhitespace).reverse.dropWhile
        Char.isWhitespace).reverse)

/-- Python `str.lower()` (ASCII case folding suffices for the template and
regex comparisons of this repository). -/
def pyLower (s : String) : String :=
  String.mk (s.toList.map Char.toLower)

/-- Drop a literal character-list prefix, or fail. -/
def dropPrefixList : List Char → List Char → Option (List Char)
  | cs, [] => some cs
  | [], _ :: _ => none
  | c :: cs, p :: ps => if c = p then dropPrefixList cs ps else none

/-- Drop a literal string prefix, or fail (`re.match` against a literal
pattern head). -/
def dropPre (s pre : String) : Option String :=
  (dropPrefixList s.toList pre.toList).map String.mk

/-- Split a string into its maximal leading digit run (`\d+`, possibly
empty) and the rest. -/
def takeDigits (s : String) : String × String :=
  let ds := s.toList.takeWhile Char.isDigit
  (String.mk ds, String.mk (s.toList.drop ds.length))

/-- Outcome of a call into an external service: `ok` carries the parsed
response; `exn` stands for any raised exception (network error, timeout,
rate limit, unexpected response shape). -/
inductive FetchOutcome (α : Type) where
  | ok : α → FetchOutcome α
  | exn : FetchOutcome α
  deriving Repr, DecidableEq

/-! Wikidata property identifiers.  The repository reads them from
`wikibots/lib/wikidata.py`, which is not among the provided source files;
where `usace.py` (which inlines its own copy of the table) gives a concrete
id it is used, the remaining ones are opaque distinct tokens — no claim
depends on the concrete id strings. -/
namespace WikidataProperty

def AuthorName : String := "P2093"
def AuthorNameString : String := "P2093"
def CoordinatesOfThePointOfView : String := "P1259"
def CopyrightLicense : String := "P275"
def Creator : String := "P170"
def Depicts : String := "P180"
def DescribedAtUrl : String := "P973"
def FlickrPhotoId : String := "P12120"
def FlickrUserId : String := "P3267"
def INaturalistObservationId : String := "P5683"
def INaturalistPhotoId : String := "INaturalistPhotoId"
def INaturalistTaxonId : String := "P3151"
def INaturalistUserId : String := "INaturalistUserId"
def Inception : String := "P571"
def ORCID : String := "P496"
def Operator : String := "P137"
def PortableAntiquitiesSchemeImageID : String := "PortableAntiquitiesSchemeImageID"
def PublicationDate : String := "P577"
def PublishedIn : String := "P1433"
def SourceOfFile : String := "P7482"
def SourcingCircumstances : String := "P1480"
def StatedIn : String := "P248"
def Title : String := "P1476"
def Url : String := "P2699"
def YouTubeChannelId : String := "P2397"
def YouTubeHandle : String := "P11245"
def YouTubeVideoId : String := "P1651"

end WikidataProperty

/-! Wikidata entity identifiers (same provenance as `WikidataProperty`). -/
namespace WikidataEntity

def Circa : String := "Q5727902"
def FileAvailableOnInternet : String := "Q74228490"
def Flickr : String := "Q103204"
def PortableAntiquitiesSchemeDatabase : String := "PortableAntiquitiesSchemeDatabase"
def YouTube : String := "Q866"
def iNaturalist : String := "Q16958215"

end WikidataEntity

/-! ## Markup field extraction (`BaseBot.retrieve_template_data`) -/

/-- A template invocation in parsed wikitext (mwparserfromhell `Template`):
a name and an ordered list of (parameter name, parameter value) pairs.
Positional parameters are stored under their numeric names "1", "2", …,
exactly as mwparserfromhell does. -/
structure Template where
  name : String
  params : List (String × String)
  deriving Repr, DecidableEq

/-- `template.get(name)`: the first parameter whose whitespace-stripped name
equals the whitespace-stripped lookup name (mwparserfromhell normalizes
parameter names by stripping). -/
def Template.get (t : Template) (p : String) : Option String :=
  (t.params.find? (fun q => pyStrip q.1 = pyStrip p)).map (fun q => q.2)

/-- `template.has(name)`: whether `get` succeeds. -/
def Template.hasParam (t : Template) (p : String) : Bool :=
  (t.get p).isSome

/-- The parameter scan of `retrieve_template_data`: for each candidate
parameter name in order, if the template has it, return its raw value. -/
def findParam (t : Template) : List String → Option String
  | [] => none
  | p :: ps => if t.hasParam p then t.get p else findParam t ps

/-- `BaseBot.retrieve_template_data` (bot.py lines 126–154): filter the
page's template invocations to those whose whitespace-stripped name is in
`templates` (a case-sensitive comparison); take the first; return the
whitespace-trimmed value of the first present candidate parameter.  When no
invocation matches, or the matched invocation has none of the candidate
parameters, set the fingerprint key and return `none`. -/
def retrieve_template_data (wikicode : List Template)
    (templates parameters : List String) (redis_key : String)
    (redis : RedisState) : Option String × RedisState :=
  match wikicode.filter (fun t => templates.contains (pyStrip t.name)) with
  | [] => (none, redisSet redis redis_key)
  | t :: _ =>
    match findParam t parameters with
    | some v => (some (pyStrip v), redis)
    | none => (none, redisSet redis redis_key)

/-- Modelled from the spec: the template-name match of §4.2 as the claim
words it, "case- and whitespace-normalized" — the invocation name and every
candidate name are whitespace-stripped and lowercased before comparison.
This definition exists only to be compared against
`retrieve_template_data`, whose name match is case-sensitive. -/
def retrieve_template_data_case_normalized (wikicode : List Template)
    (templates parameters : List String) (redis_key : String)
    (redis : RedisState) : Option String × RedisState :=
  match wikicode.filter
      (fun t => templates.any (fun n => pyLower (pyStrip n) = pyLower (pyStrip t.name))) with
  | [] => (none, redisSet redis redis_key)
  | t :: _ =>
    match findParam t parameters with
    | some v => (some (pyStrip v), redis)
    | none => (none, redisSet redis redis_key)

/-! ## Statement builders of `BaseBot` (bot.py lines 156–277)

The per-platform hook methods (`hook_creator_target`, `hook_creator_claim`,
`hook_depicts_claim`, `hook_source_claim`) are passed as function
parameters.  A hook returning `none` models a hook whose `assert` fails;
the call sites wrap hooks in `suppress(AssertionError)`, so the claim is
then left unchanged. -/

/-- A hook call under `with suppress(AssertionError)`. -/
def applyHook (h : Claim → Option Claim) (c : Claim) : Claim :=
  (h c).getD c

/-- `BaseBot.hook_creator_target` default: set the `somevalue` snak type. -/
def default_hook_creator_target (c : Claim) : Option Claim :=
  some { c with value := ClaimValue.somevalue }

/-- Default no-op hook (`hook_creator_claim`, `hook_depicts_claim`,
`hook_source_claim` in `BaseBot`). -/
def default_hook (c : Claim) : Option Claim :=
  some c

/-- `BaseBot.create_id_claim` (bot.py lines 201–210). -/
def create_id_claim (existing : ClaimCollection) (property value : String) :
    List Claim :=
  if hasProp existing property then []
  else [{ prop := property, value := ClaimValue.str value }]

/-- `BaseBot.create_creator_claim` (bot.py lines 156–182).  The two hook
parameters are the subclass's `hook_creator_target` and
`hook_creator_claim`.  `if author_name_string:` and `if url:` are Python
truthiness tests, so an empty string adds no qualifier. -/
def create_creator_claim (hook_target hook_claim : Claim → Option Claim)
    (existing : ClaimCollection)
    (author_name_string url : Option String) : List Claim :=
  if hasProp existing WikidataProperty.Creator then []
  else
    let c := applyHook hook_target { prop := WikidataProperty.Creator }
    let c := match author_name_string with
      | some a =>
        if a = "" then c
        else addQualifier c (WikidataProperty.AuthorNameString, ClaimValue.str a)
      | none => c
    let c := match url with
      | some u =>
        if u = "" then c
        else addQualifier c (WikidataProperty.Url, ClaimValue.str u)
      | none => c
    [applyHook hook_claim c]

/-- `BaseBot.create_depicts_claim` (bot.py lines 184–199). -/
def create_depicts_claim (hook_depicts : Claim → Option Claim)
    (existing : ClaimCollection) (depicts : Option String) : List Claim :=
  match depicts with
  | none => []
  | some d =>
    if hasProp existing WikidataProperty.Depicts then []
    else
      [applyHook hook_depicts
        { prop := WikidataProperty.Depicts, value := ClaimValue.item d }]

/-- `BaseBot.create_inception_claim` (bot.py lines 212–228): the time value
arrives pre-built (`wbtime`); a `"circa"` granularity adds the
sourcing-circumstances qualifier. -/
def create_inception_claim (existing : ClaimCollection)
    (wbtime : ClaimValue) (granularity : String) : List Claim :=
  if hasProp existing WikidataProperty.Inception then []
  else
    let c : Claim := { prop := WikidataProperty.Inception, value := wbtime }
    let c :=
      if granularity = "circa" then
        addQualifier c (WikidataProperty.SourcingCircumstances,
          ClaimValue.item WikidataEntity.Circa)
      else c
    [c]

/-- `BaseBot.create_published_in_claim` (bot.py lines 230–252).
`date_posted` is the (year, month, day) of the datetime, attached as a
day-precision publication-date qualifier when present. -/
def create_published_in_claim (existing : ClaimCollection)
    (published_in : String) (date_posted : Option (Int × Nat × Nat)) :
    List Claim :=
  if hasProp existing WikidataProperty.PublishedIn then []
  else
    let c : Claim := { prop := WikidataProperty.PublishedIn,
                       value := ClaimValue.item published_in }
    let c := match date_posted with
      | some (y, m, d) =>
        addQualifier c (WikidataProperty.PublicationDate,
          ClaimValue.time y m d 11)
      | none => c
    [c]

/-- `BaseBot.create_source_claim` (bot.py lines 254–277).  `if operator:`
is a truthiness test. -/
def create_source_claim (hook_source : Claim → Option Claim)
    (existing : ClaimCollection) (source : String)
    (operator : Option String) : List Claim :=
  if hasProp existing WikidataProperty.SourceOfFile then []
  else
    let c : Claim := { prop := WikidataProperty.SourceOfFile,
                       value := ClaimValue.item WikidataEntity.FileAvailableOnInternet,
                       qualifiers := [(WikidataProperty.DescribedAtUrl,
                                       ClaimValue.str source)] }
    let c := match operator with
      | some op =>
        if op = "" then c
        else addQualifier c (WikidataProperty.Operator, ClaimValue.item op)
      | none => c
    [applyHook hook_source c]

/-! ## Reconciliation and submission (`BaseBot.save`, bot.py lines 318–351) -/

/-- Result of one submission attempt. -/
inductive SubmitOutcome where
  | success : SubmitOutcome
  | failure : SubmitOutcome
  deriving Repr, DecidableEq

/-- Observable effects of one call to `BaseBot.save`. -/
structure SaveResult where
  submitted : Bool
  criticalLogged : Bool
  redis : RedisState
  quit : Bool
  deriving Repr, DecidableEq

/-- `BaseBot.save` (bot.py lines 318–351): with no new claims, return
without any network call; in dry-run mode, quit before submitting;
otherwise submit the delta once, and on an exception log a critical event.
The function never touches the Redis cache. -/
def save (new_claims : List Claim) (dry_run : Bool)
    (outcome : SubmitOutcome) (redis : RedisState) : SaveResult :=
  if new_claims.isEmpty then
    { submitted := false, criticalLogged := false, redis := redis, quit := false }
  else if dry_run then
    { submitted := false, criticalLogged := false, redis := redis, quit := true }
  else
    match outcome with
    | SubmitOutcome.success =>
      { submitted := true, criticalLogged := false, redis := redis, quit := false }
    | SubmitOutcome.failure =>
      { submitted := true, criticalLogged := true, redis := redis, quit := false }

/-! ## FlickrBot (flickr.py) -/

namespace FlickrBot

/-- flickr_photos_api `User` (the fields flickr.py reads). -/
structure User where
  id : String
  username : String
  realname : Option String
  profile_url : String
  deriving Repr, DecidableEq

/-- flickr_photos_api `LocationInfo`: latitude, longitude, and the Flickr
integer accuracy level. -/
structure LocationInfo where
  latitude : ℚ
  longitude : ℚ
  accuracy : Int
  deriving Repr, DecidableEq

/-- flickr_photos_api `DateTaken`: the components of the `value` datetime
and the granularity string. -/
structure DateTaken where
  year : Int
  month : Nat
  day : Nat
  granularity : String
  deriving Repr, DecidableEq

/-- The fields of a flickr_photos_api `SinglePhoto` the bot reads. -/
structure SinglePhoto where
  id : String
  owner : Option User
  url : String
  location : Option LocationInfo
  date_taken : Option DateTaken
  date_posted : Int × Nat × Nat
  deriving Repr, DecidableEq

/-- `FlickrBot.create_id_claim` (flickr.py lines 114–121). -/
def create_id_claim (existing : ClaimCollection) (flickr_photo_id : String) :
    List Claim :=
  if hasProp existing WikidataProperty.FlickrPhotoId then []
  else [{ prop := WikidataProperty.FlickrPhotoId,
          value := ClaimValue.str flickr_photo_id }]

/-- `FlickrBot.create_creator_claim` (flickr.py lines 123–145).
`user["realname"] or user["username"]` is Python `or`: the realname when it
is a non-empty string, the username otherwise. -/
def create_creator_claim (existing : ClaimCollection) (user : Option User) :
    List Claim :=
  match user with
  | none => []
  | some u =>
    if hasProp existing WikidataProperty.Creator then []
    else
      let author_name :=
        (match u.realname with
          | some r => if r = "" then u.username else r
          | none => u.username) |> pyStrip
      [{ prop := WikidataProperty.Creator,
         value := ClaimValue.somevalue,
         qualifiers := [(WikidataProperty.AuthorName, ClaimValue.str author_name),
                        (WikidataProperty.Url, ClaimValue.str u.profile_url),
                        (WikidataProperty.FlickrUserId, ClaimValue.str u.id)] }]

/-- The Flickr-accuracy → Wikidata-precision lookup table of
`FlickrBot.create_location_claim` (flickr.py lines 225–250), with the float
literals written as exact rationals. -/
def wikidata_precision_table : List (Int × ℚ) :=
  [(16, 1 / 100000),
   (15, 2777777777777778 / 100000000000000000000),
   (14, 2777777777777778 / 100000000000000000000),
   (13, 1 / 10000),
   (12, 1 / 10000),
   (11, 2777777777777778 / 10000000000000000000),
   (10, 1 / 1000),
   (9, 1 / 1000),
   (8, 1 / 1000),
   (7, 1 / 1000),
   (6, 1 / 100),
   (5, 16666666666666666 / 1000000000000000000),
   (4, 16666666666666666 / 1000000000000000000),
   (3, 1 / 10),
   (2, 1 / 10),
   (1, 1 / 10)]

/-- Dictionary lookup into the accuracy table; `none` is the `KeyError`
case, which the source catches. -/
def wikidata_precision (accuracy : Int) : Option ℚ :=
  wikidata_precision_table.lookup accuracy

/-- `FlickrBot.create_location_claim` (flickr.py lines 147–262): no
statement when the property already exists, when there is no location,
when the coordinates are the (0, 0) null sentinel, or when the accuracy
level is outside the table (the `KeyError` is caught: the statement is
logged and dropped, nothing is raised). -/
def create_location_claim (existing : ClaimCollection)
    (location : Option LocationInfo) : List Claim :=
  if hasProp existing WikidataProperty.CoordinatesOfThePointOfView then []
  else
    match location with
    | none => []
    | some loc =>
      if loc.latitude = 0 ∧ loc.longitude = 0 then []
      else
        match wikidata_precision loc.accuracy with
        | none => []
        | some p =>
          [{ prop := WikidataProperty.CoordinatesOfThePointOfView,
             value := ClaimValue.coord loc.latitude loc.longitude p }]

/-- pywikibot `WbTime.PRECISION` values used by flickr.py. -/
def PRECISION_year : Nat := 9
/-- pywikibot month precision. -/
def PRECISION_month : Nat := 10
/-- pywikibot day precision. -/
def PRECISION_day : Nat := 11

/-- The granularity → precision map of `FlickrBot.create_inception_claim`
(flickr.py lines 268–273). -/
def precision_map : List (String × Nat) :=
  [("second", PRECISION_day), ("month", PRECISION_month),
   ("year", PRECISION_year), ("circa", PRECISION_year)]

/-- `FlickrBot.create_inception_claim` (flickr.py lines 264–294): map the
granularity through `precision_map` (an unrecognized granularity is logged
and only this statement is dropped); zero out the month and day components
when the precision is coarser than them; a `"circa"` granularity
additionally attaches the sourcing-circumstances "circa" qualifier. -/
def create_inception_claim (existing : ClaimCollection)
    (date_taken : Option DateTaken) : List Claim :=
  match date_taken with
  | none => []
  | some dt =>
    if hasProp existing WikidataProperty.Inception then []
    else
      match precision_map.lookup dt.granularity with
      | none => []
      | some precision =>
        let month := if precision < PRECISION_month then 0 else dt.month
        let day := if precision < PRECISION_day then 0 else dt.day
        let c : Claim := { prop := WikidataProperty.Inception,
                           value := ClaimValue.time dt.year month day precision }
        let c :=
          if dt.granularity = "circa" then
            addQualifier c (WikidataProperty.SourcingCircumstances,
              ClaimValue.item WikidataEntity.Circa)
          else c
        [c]

/-- `FlickrBot.create_published_in_claim` (flickr.py lines 296–309). -/
def create_published_in_claim (existing : ClaimCollection)
    (date_posted : Int × Nat × Nat) : List Claim :=
  if hasProp existing WikidataProperty.PublishedIn then []
  else
    [{ prop := WikidataProperty.PublishedIn,
       value := ClaimValue.item WikidataEntity.Flickr,
       qualifiers := [(WikidataProperty.PublicationDate,
                       ClaimValue.time date_posted.1 date_posted.2.1
                         date_posted.2.2 PRECISION_day)] }]

/-- The statement-building portion of `FlickrBot.treat_page` (flickr.py
lines 83–88): the six builder calls run in sequence against the same
existing-statement index, each appending to the new-claims list. -/
def build_claims (existing : ClaimCollection) (photo : SinglePhoto) :
    List Claim :=
  create_id_claim existing photo.id
  ++ create_creator_claim existing photo.owner
  ++ Wikibots.create_source_claim default_hook existing photo.url
       (some WikidataEntity.Flickr)
  ++ create_location_claim existing photo.location
  ++ create_inception_claim existing photo.date_taken
  ++ create_published_in_claim existing photo.date_posted

end FlickrBot

/-! ## YouTubeBot (youtube.py) -/

namespace YouTubeBot

/-- `YouTubeBot.create_youtube_video_id_claim` (youtube.py lines 110–123). -/
def create_youtube_video_id_claim (existing : ClaimCollection)
    (videoId : String) : List Claim :=
  if hasProp existing WikidataProperty.YouTubeVideoId then []
  else [{ prop := WikidataProperty.YouTubeVideoId,
          value := ClaimValue.str videoId }]

/-- `YouTubeBot.create_published_in_claim` (youtube.py lines 125–150).
`date` is the (year, month, day) of the parsed ISO publication timestamp;
the time-of-day fields are zeroed and the qualifier carries day
precision. -/
def create_published_in_claim (existing : ClaimCollection)
    (date : Int × Nat × Nat) : List Claim :=
  if hasProp existing WikidataProperty.PublishedIn then []
  else
    [{ prop := WikidataProperty.PublishedIn,
       value := ClaimValue.item WikidataEntity.YouTube,
       qualifiers := [(WikidataProperty.PublicationDate,
                       ClaimValue.time date.1 date.2.1 date.2.2
                         FlickrBot.PRECISION_day)] }]

/-- `YouTubeBot.create_creator_claim` (youtube.py lines 152–184).
`channelHandle` is compared against `None` (not truthiness). -/
def create_creator_claim (existing : ClaimCollection)
    (channelTitle : String) (channelHandle : Option String)
    (channelId : String) : List Claim :=
  if hasProp existing WikidataProperty.Creator then []
  else
    let c : Claim := { prop := WikidataProperty.Creator,
                       value := ClaimValue.somevalue,
                       qualifiers := [(WikidataProperty.AuthorNameString,
                                       ClaimValue.str channelTitle)] }
    let c := match channelHandle with
      | some h => addQualifier c (WikidataProperty.YouTubeHandle, ClaimValue.str h)
      | none => c
    let c := addQualifier c (WikidataProperty.YouTubeChannelId,
      ClaimValue.str channelId)
    [c]

/-- `YouTubeBot.create_source_claim` (youtube.py lines 186–199): an extra
guard, then the `BaseBot` source builder with the YouTube operator. -/
def create_source_claim (existing : ClaimCollection) (source : String) :
    List Claim :=
  if hasProp existing WikidataProperty.SourceOfFile then []
  else Wikibots.create_source_claim default_hook existing source
    (some WikidataEntity.YouTube)

/-- `YouTubeBot.process_copyright_license_claim` (youtube.py lines
201–240), the qualifier-completion pass.  `detect` models
`language_detector.detect_language_of` followed by the
`iso_code_639_1` check: it returns the lowercased ISO 639-1 code, or
`none` when detection raises or yields no usable code.  The pass runs only
when the copyright-license property has exactly one existing statement; it
re-emits that statement (same statement id) with the missing title and
author-name qualifiers appended, or emits nothing when no qualifier was
missing. -/
def process_copyright_license_claim (detect : String → Option String)
    (existing : ClaimCollection) (video_title channel_title : String) :
    List Claim :=
  match getProp existing WikidataProperty.CopyrightLicense with
  | [c] =>
    let step1 :=
      if qualifierHasProp c WikidataProperty.Title then (c, false)
      else
        match detect video_title with
        | some lang_code =>
          (addQualifier c (WikidataProperty.Title,
            ClaimValue.mono video_title lang_code), true)
        | none => (c, false)
    let step2 :=
      if qualifierHasProp step1.1 WikidataProperty.AuthorNameString then step1
      else
        (addQualifier step1.1 (WikidataProperty.AuthorNameString,
          ClaimValue.str channel_title), true)
    if step2.2 then [step2.1] else []
  | _ => []

end YouTubeBot

/-! ## UsaceBot (usace.py) -/

namespace UsaceBot

/-- Digit list to number. -/
def digitsToNat (cs : List Char) : Nat :=
  cs.foldl (fun n c => 10 * n + (c.toNat - 48)) 0

/-- `parse_date` (usace.py lines 48–49): full match of
`^(\d{4}(-\d{2}(-\d{2})?)?)$`.  The result carries the year and the
optional month and day capture groups. -/
def parse_date (s : String) : Option (Nat × Option (Nat × Option Nat)) :=
  match s.toList with
  | [a, b, c, d] =>
    if [a, b, c, d].all Char.isDigit then
      some (digitsToNat [a, b, c, d], none)
    else none
  | [a, b, c, d, h1, e, f] =>
    if ([a, b, c, d, e, f].all Char.isDigit) ∧ h1 = '-' then
      some (digitsToNat [a, b, c, d], some (digitsToNat [e, f], none))
    else none
  | [a, b, c, d, h1, e, f, h2, g, i] =>
    if ([a, b, c, d, e, f, g, i].all Char.isDigit) ∧ h1 = '-' ∧ h2 = '-' then
      some (digitsToNat [a, b, c, d],
        some (digitsToNat [e, f], some (digitsToNat [g, i])))
    else none
  | _ => none

/-- `UsaceBot.create_inception_claim` (usace.py lines 149–164): precision
`day` when the day capture group matched, `month` when only the month group
matched, else `year`; the passed qualifiers are attached. -/
def create_inception_claim (parsed : Nat × Option (Nat × Option Nat))
    (qualifiers : List (String × ClaimValue)) : Claim :=
  let year : Int := parsed.1
  let month := match parsed.2 with | some (m, _) => m | none => 0
  let day := match parsed.2 with | some (_, some d) => d | _ => 0
  let precision :=
    match parsed.2 with
    | some (_, some _) => FlickrBot.PRECISION_day
    | some (_, none) => FlickrBot.PRECISION_month
    | none => FlickrBot.PRECISION_year
  { prop := WikidataProperty.Inception,
    value := ClaimValue.time year month day precision,
    qualifiers := qualifiers }

/-- `UsaceBot.process_inception_claim` (usace.py lines 127–147): guard on
the inception property; plain dates go straight to the builder; otherwise
the date wikitext is searched for a single two-parameter `complex date`
template whose first parameter is `ca`, producing a circa-qualified
statement; anything else yields no statement.  `date_templates` is the
parsed wikitext of the date string (`mwparserfromhell.parse(date)`),
`Template.name.matches` lowercases for comparison. -/
def process_inception_claim (existing : ClaimCollection) (date : String)
    (date_templates : List Template) : Option Claim :=
  if hasProp existing WikidataProperty.Inception then none
  else
    match parse_date date with
    | some parsed => some (create_inception_claim parsed [])
    | none =>
      match date_templates.filter
          (fun t => pyLower (pyStrip t.name) = "complex date") with
      | [t] =>
        match t.params with
        | [p0, p1] =>
          if p0.2 = "ca" then
            match parse_date p1.2 with
            | some parsed =>
              some (create_inception_claim parsed
                [(WikidataProperty.SourcingCircumstances,
                  ClaimValue.item WikidataEntity.Circa)])
            | none => none
          else none
        | _ => none
      | _ => none

/-- Strip a literal string from the front, or fail. -/
def stripLit (s pre : String) : Option String :=
  dropPre s pre

/-- Consume one or more digits from the front, or fail. -/
def eatDigits (s : String) : Option String :=
  let split := takeDigits s
  if split.1.toList.isEmpty then none else some split.2

/-- The source-URL test of `UsaceBot.process_source_claim` (usace.py line
170): full match of
`^https://usace\.contentdm\.oclc\.org/digital/collection/p\d+coll\d+/id/\d+$`. -/
def usace_source_url_ok (source : String) : Bool :=
  (stripLit source "https://usace.contentdm.oclc.org/digital/collection/p"
    |>.bind eatDigits
    |>.bind (fun r => stripLit r "coll")
    |>.bind eatDigits
    |>.bind (fun r => stripLit r "/id/")
    |>.bind eatDigits
    |>.map (fun r => decide (r = ""))).getD false

/-- `UsaceBot.process_source_claim` (usace.py lines 166–184). -/
def process_source_claim (existing : ClaimCollection) (source : String) :
    Option Claim :=
  if hasProp existing WikidataProperty.SourceOfFile then none
  else if usace_source_url_ok source then
    some { prop := WikidataProperty.SourceOfFile,
           value := ClaimValue.item "Q74228490",
           qualifiers := [(WikidataProperty.DescribedAtUrl,
                           ClaimValue.str source),
                          (WikidataProperty.Operator,
                           ClaimValue.item "Q1049334")] }
  else none

end UsaceBot

/-! ## INaturalistBot (inaturalist.py) -/

namespace INaturalistBot

/-- Match the ORCID pattern `\d{4}-\d{4}-\d{4}-\d{3}[\dX]` at the head of a
character list, returning the matched text. -/
def orcidPatternAt (cs : List Char) : Option String :=
  match cs with
  | a1 :: a2 :: a3 :: a4 :: h1 :: b1 :: b2 :: b3 :: b4 :: h2 ::
    c1 :: c2 :: c3 :: c4 :: h3 :: d1 :: d2 :: d3 :: d4 :: _ =>
    if ([a1, a2, a3, a4, b1, b2, b3, b4, c1, c2, c3, c4, d1, d2, d3].all
          Char.isDigit)
        ∧ h1 = '-' ∧ h2 = '-' ∧ h3 = '-'
        ∧ (d4.isDigit ∨ d4 = 'X') then
      some (String.mk [a1, a2, a3, a4, h1, b1, b2, b3, b4, h2,
                       c1, c2, c3, c4, h3, d1, d2, d3, d4])
    else none
  | _ => none

/-- `re.search` for the ORCID pattern: first matching position wins. -/
def orcidSearch : List Char → Option String
  | [] => none
  | c :: rest =>
    match orcidPatternAt (c :: rest) with
    | some s => some s
    | none => orcidSearch rest

/-- `_extract_orcid_id` (inaturalist.py lines 45–62): `if not orcid_url`
is Python truthiness, so `None` and the empty string both yield `None`. -/
def extract_orcid_id (orcid_url : Option String) : Option String :=
  match orcid_url with
  | none => none
  | some u => if u = "" then none else orcidSearch u.toList

/-- The fields of an iNaturalist observation's `user` object the bot
reads. -/
structure ObsUser where
  id : String
  name : Option String
  login : Option String
  orcid : Option String
  deriving Repr, DecidableEq

/-- The fields of an iNaturalist observation the bot reads.
`prefers_community_taxon` is `none` when the key is absent from
`preferences`; the two ancestor lists are the `ancestor_ids` of
`community_taxon` and of `taxon`. -/
structure Observation where
  quality_grade : String
  prefers_community_taxon : Option Bool
  community_ancestor_ids : List Nat
  taxon_ancestor_ids : List Nat
  observation_photos : List String
  user : Option ObsUser
  deriving Repr, DecidableEq

/-- The creator data stored on `PhotoData` (the `User` dataclass of
inaturalist.py). -/
structure CreatorData where
  id : String
  name : Option String
  orcid : Option String
  deriving Repr, DecidableEq

/-- The `PhotoData` dataclass of inaturalist.py. -/
structure PhotoData where
  id : String
  observation_id : String
  creator : Option CreatorData := none
  depicts : Option String := none
  deriving Repr, DecidableEq

/-- Python `a or b` on optional strings: `a` when it is a non-empty
string, else `b`. -/
def pyOrStr : Option String → Option String → Option String
  | some a, b => if a = "" then b else some a
  | none, b => b

/-- The per-run taxon resolution cache (`taxa_wikidata_map`): external
taxon id → resolved item id. -/
abbrev TaxaCache := List (Nat × String)

/-- The ancestor walk of `INaturalistBot.determine_taxa` (inaturalist.py
lines 175–199), over an already-reversed ancestor list.  `query` models the
SPARQL lookup, returning the items carrying the external taxon id.  The
result is the resolved depicts target, the updated cache, and the list of
ids for which the knowledge base was actually queried (cache hits query
nothing). -/
def taxaWalk (query : Nat → List String) :
    TaxaCache → List Nat → Option String × TaxaCache × List Nat
  | cache, [] => (none, cache, [])
  | cache, taxa_id :: rest =>
    match cache.lookup taxa_id with
    | some item => (some item, cache, [])
    | none =>
      match query taxa_id with
      | [] =>
        let r := taxaWalk query cache rest
        (r.1, r.2.1, taxa_id :: r.2.2)
      | [item] => (some item, (taxa_id, item) :: cache, [taxa_id])
      | _ :: _ :: _ => (none, cache, [taxa_id])

/-- `INaturalistBot.determine_taxa` (inaturalist.py lines 161–199): only
research-grade observations are resolved; the community taxon is used when
the observation prefers it; the ancestor ids (stored least-specific first)
are walked in reversed order, i.e. most-specific first. -/
def determine_taxa (query : Nat → List String) (cache : TaxaCache)
    (observation : Observation) : Option String × TaxaCache × List Nat :=
  if observation.quality_grade ≠ "research" then (none, cache, [])
  else
    let taxa :=
      if observation.prefers_community_taxon = some true then
        observation.community_ancestor_ids
      else observation.taxon_ancestor_ids
    taxaWalk query cache taxa.reverse

/-- The URL test of `fetch_observation_data` (inaturalist.py line 128):
`re.match(r'https://www.inaturalist.org/photos/(\d+)', photo_url)`; the
captured group is the digit run after the fixed prefix. -/
def inat_url_photo_id (photo_url : String) : Option String :=
  let pre := "https://www.inaturalist.org/photos/"
  match dropPre photo_url pre with
  | none => none
  | some rest =>
    let split := takeDigits rest
    if split.1.toList.isEmpty then none else some split.1

/-- `INaturalistBot.fetch_observation_data` (inaturalist.py lines 117–159),
returning the updated Redis state, the updated taxon cache and the
`self.photo` field.  Faithful to the source: `self.photo` is assigned
*before* the observation fetch, so the fetch-exception branch and the
photo-not-attached branch set the fingerprint key but leave `self.photo`
set (the caller then proceeds to build statements). -/
def fetch_observation_data (wikicode : List Template) (redis_key : String)
    (fetch : FetchOutcome Observation) (taxa_query : Nat → List String)
    (taxa_cache : TaxaCache) (redis : RedisState) :
    RedisState × TaxaCache × Option PhotoData :=
  match retrieve_template_data wikicode ["iNaturalist", "inaturalist"]
      ["id", "1"] redis_key redis with
  | (none, r) => (r, taxa_cache, none)
  | (some observation_id, r) =>
    match retrieve_template_data wikicode
        ["iNaturalistReview", "iNaturalistreview"] ["sourceurl"]
        redis_key r with
    | (none, r2) => (r2, taxa_cache, none)
    | (some photo_url, r2) =>
      match inat_url_photo_id photo_url with
      | none => (redisSet r2 redis_key, taxa_cache, none)
      | some pid =>
        let photo : PhotoData := { id := pid, observation_id := observation_id }
        match fetch with
        | FetchOutcome.exn => (redisSet r2 redis_key, taxa_cache, some photo)
        | FetchOutcome.ok obs =>
          if pid ∈ obs.observation_photos then
            let photo :=
              match obs.user with
              | some u =>
                let cr : CreatorData :=
                  { id := u.id,
                    name := pyOrStr u.name u.login,
                    orcid := extract_orcid_id u.orcid }
                { photo with creator := some cr }
              | none => photo
            let taxa := determine_taxa taxa_query taxa_cache obs
            (r2, taxa.2.1, some { photo with depicts := taxa.1 })
          else (redisSet r2 redis_key, taxa_cache, some photo)

/-- The preprocessing portion of `INaturalistBot.treat_page`
(inaturalist.py lines 86–105): review-status check, then
`fetch_observation_data`; statement building runs afterwards exactly when
the returned photo is present. -/
def treat_page_preprocess (wikicode : List Template) (redis_key : String)
    (fetch : FetchOutcome Observation) (taxa_query : Nat → List String)
    (taxa_cache : TaxaCache) (redis : RedisState) :
    RedisState × TaxaCache × Option PhotoData :=
  match retrieve_template_data wikicode
      ["iNaturalistReview", "iNaturalistreview"] ["status"]
      redis_key redis with
  | (none, r) => (r, taxa_cache, none)
  | (some status, r) =>
    if status ∉ ["pass", "pass-change"] then
      (redisSet r redis_key, taxa_cache, none)
    else fetch_observation_data wikicode redis_key fetch taxa_query
      taxa_cache r

/-- `INaturalistBot.hook_creator_target` (inaturalist.py lines 213–221)
composed with `find_creator_wikidata_item` (lines 230–249): assertion
failure when there is no creator; a unique user-id match becomes the
target, otherwise the `somevalue` snak. -/
def hook_creator_target (photo : PhotoData)
    (user_query : String → List String) (c : Claim) : Option Claim :=
  match photo.creator with
  | none => none
  | some cr =>
    match user_query cr.id with
    | [item] => some { c with value := ClaimValue.item item }
    | _ => some { c with value := ClaimValue.somevalue }

/-- `INaturalistBot.hook_creator_claim` (inaturalist.py lines 201–211):
assertion failure without a creator; adds the platform user-id qualifier
and, for a truthy ORCID, the ORCID qualifier. -/
def hook_creator_claim (photo : PhotoData) (c : Claim) : Option Claim :=
  match photo.creator with
  | none => none
  | some cr =>
    let c := addQualifier c (WikidataProperty.INaturalistUserId,
      ClaimValue.str cr.id)
    match cr.orcid with
    | some o =>
      if o = "" then some c
      else some (addQualifier c (WikidataProperty.ORCID, ClaimValue.str o))
    | none => some c

/-- `INaturalistBot.hook_depicts_claim` (inaturalist.py lines 223–228):
assertion failure without a depicts target; adds the stated-in
reference. -/
def hook_depicts_claim (photo : PhotoData) (c : Claim) : Option Claim :=
  match photo.depicts with
  | none => none
  | some _ =>
    some { c with references := c.references ++
      [(WikidataProperty.StatedIn, ClaimValue.item WikidataEntity.iNaturalist)] }

/-- The statement-building portion of `INaturalistBot.treat_page`
(inaturalist.py lines 107–113): the builder calls run in sequence against
the same existing-statement index; the creator builder runs only when the
photo has a creator. -/
def build_claims (user_query : String → List String)
    (existing : ClaimCollection) (photo : PhotoData) : List Claim :=
  create_id_claim existing WikidataProperty.INaturalistPhotoId photo.id
  ++ create_id_claim existing WikidataProperty.INaturalistObservationId
       photo.observation_id
  ++ create_source_claim default_hook existing
       ("https://www.inaturalist.org/photos/" ++ photo.id)
       (some WikidataEntity.iNaturalist)
  ++ create_depicts_claim (hook_depicts_claim photo) existing photo.depicts
  ++ (match photo.creator with
      | some cr =>
        create_creator_claim (hook_creator_target photo user_query)
          (hook_creator_claim photo) existing cr.name none
      | none => [])

end INaturalistBot

/-! ## PortableAntiquitiesSchemeBot (pas.py) -/

namespace PasBot

/-- The fields of the PAS image record the bot reads. -/
structure PasImage where
  id : String
  created : Option String
  deriving Repr, DecidableEq

/-- First PAS regex (pas.py line 20):
`re.match(r"https?://finds\.org\.uk/database/ajax/download/id/(\d+)/?", url)`;
the captured group is the digit run. -/
def match_download (url : String) : Option String :=
  let rest :=
    match dropPre url "https://" with
    | some r => some r
    | none => dropPre url "http://"
  match rest with
  | none => none
  | some r =>
    match dropPre r "finds.org.uk/database/ajax/download/id/" with
    | none => none
    | some tail =>
      let split := takeDigits tail
      if split.1.toList.isEmpty then none else some split.1

/-- Second PAS regex (pas.py line 21):
`https?://finds\.org\.uk/database/images/image/id/(\d+)/recordtype/artefacts/?`. -/
def match_image (url : String) : Option String :=
  let rest :=
    match dropPre url "https://" with
    | some r => some r
    | none => dropPre url "http://"
  match rest with
  | none => none
  | some r =>
    match dropPre r "finds.org.uk/database/images/image/id/" with
    | none => none
    | some tail =>
      let split := takeDigits tail
      if split.1.toList.isEmpty then none
      else if (dropPre split.2 "/recordtype/artefacts").isSome then
        some split.1
      else none

/-- `PortableAntiquitiesSchemeBot.find_matches` over all external links
(pas.py lines 43–48 and 119–127): each stripped link URL is tested against
the two patterns in order, the first matching pattern's captured id is
added to the `image_id` set. -/
def collect_image_ids (urls : List String) : List String :=
  urls.foldl
    (fun acc url =>
      match match_download (pyStrip url) with
      | some g => acc.insert g
      | none =>
        match match_image (pyStrip url) with
        | some g => acc.insert g
        | none => acc)
    []

/-- The failure/caching control flow of
`PortableAntiquitiesSchemeBot.treat_page` (pas.py lines 34–117), up to the
point where statement building begins.  Returns the updated Redis state and
whether the record proceeded to statement building.  `image_fetch` and
`hash_fetch` are the two external HTTP calls; `file_hash` is the result of
`get_file_hash`. -/
def treat_page_preprocess (urls : List String) (redis_key : String)
    (image_fetch : FetchOutcome PasImage) (hash_fetch : FetchOutcome String)
    (file_hash : String) (redis : RedisState) : RedisState × Bool :=
  match collect_image_ids urls with
  | [image_id] =>
    (match image_fetch with
     | FetchOutcome.exn => (redisSet redis redis_key, false)
     | FetchOutcome.ok img =>
       if img.id ≠ image_id then (redisSet redis redis_key, false)
       else
         match hash_fetch with
         | FetchOutcome.exn => (redisSet redis redis_key, false)
         | FetchOutcome.ok h =>
           if h ≠ file_hash then (redisSet redis redis_key, false)
           else (redis, true))
  | _ => (redisSet redis redis_key, false)

end PasBot

/-! ## Python call semantics for `save` (claim C10)

`BaseBot.save` is `def save(self) -> None`; `FlickrBot.treat_page` calls
`self.save('add [[Commons:Structured data|SDC]] … Task #2')` and
`YouTubeBot.treat_page` calls `self.save('add … Test run.')`.  The model
captures just enough of Python: per-class method tables, attribute lookup
along the method resolution order, and the positional-arity check that
raises `TypeError` before a function body runs. -/

namespace PyModel

/-- Signature of a Python method: positional parameters after `self`, and
how many of them have defaults. -/
structure PyFunction where
  n_positional : Nat
  n_defaults : Nat
  deriving Repr, DecidableEq

/-- Method lookup along a method resolution order given as a list of
per-class method tables. -/
def mroLookup : List (List (String × PyFunction)) → String → Option PyFunction
  | [], _ => none
  | table :: rest, nm =>
    match table.lookup nm with
    | some f => some f
    | none => mroLookup rest nm

/-- A call with `nargs` positional arguments binds iff `nargs` lies between
the number of required parameters and the number of parameters. -/
def accepts (f : PyFunction) (nargs : Nat) : Bool :=
  (f.n_positional - f.n_defaults ≤ nargs) ∧ (nargs ≤ f.n_positional)

/-- Errors a bound method call can raise before its body runs. -/
inductive PyError where
  | typeError : PyError
  | attributeError : PyError
  deriving Repr, DecidableEq

/-- Methods defined by `BaseBot` itself (bot.py), with their arities;
`save` (line 318) takes no argument besides `self`. -/
def baseBotMethods : List (String × PyFunction) :=
  [("treat_page", ⟨0, 0⟩),
   ("fetch_claims", ⟨0, 0⟩),
   ("parse_wikicode", ⟨0, 0⟩),
   ("retrieve_template_data", ⟨2, 0⟩),
   ("create_creator_claim", ⟨2, 2⟩),
   ("create_depicts_claim", ⟨1, 0⟩),
   ("create_id_claim", ⟨2, 0⟩),
   ("create_inception_claim", ⟨2, 0⟩),
   ("create_published_in_claim", ⟨2, 1⟩),
   ("create_source_claim", ⟨2, 1⟩),
   ("hook_creator_claim", ⟨1, 0⟩),
   ("hook_creator_target", ⟨1, 0⟩),
   ("hook_depicts_claim", ⟨1, 0⟩),
   ("hook_source_claim", ⟨1, 0⟩),
   ("get_file_hash", ⟨0, 0⟩),
   ("save", ⟨0, 0⟩),
   ("teardown", ⟨0, 0⟩)]

/-- Methods defined by `FlickrBot` itself (flickr.py): no `save`
override. -/
def flickrBotMethods : List (String × PyFunction) :=
  [("treat_page", ⟨0, 0⟩),
   ("get_flickr_photo", ⟨1, 0⟩),
   ("create_id_claim", ⟨1, 0⟩),
   ("create_creator_claim", ⟨1, 0⟩),
   ("create_location_claim", ⟨1, 0⟩),
   ("create_inception_claim", ⟨1, 0⟩),
   ("create_published_in_claim", ⟨1, 0⟩)]

/-- Methods defined by `YouTubeBot` itself (youtube.py): no `save`
override. -/
def youTubeBotMethods : List (String × PyFunction) :=
  [("treat_page", ⟨0, 0⟩),
   ("create_youtube_video_id_claim", ⟨1, 0⟩),
   ("create_published_in_claim", ⟨1, 0⟩),
   ("create_creator_claim", ⟨3, 0⟩),
   ("create_source_claim", ⟨1, 0⟩),
   ("process_copyright_license_claim", ⟨2, 0⟩)]

/-- MRO of `FlickrBot` restricted to the classes of this repository (the
pywikibot ancestors define no `save`). -/
def flickrMRO : List (List (String × PyFunction)) :=
  [flickrBotMethods, baseBotMethods]

/-- MRO of `YouTubeBot` restricted to the classes of this repository. -/
def youTubeMRO : List (List (String × PyFunction)) :=
  [youTubeBotMethods, baseBotMethods]

/-- Calling `self.save(…)` with `nargs` positional arguments on a bot whose
MRO is `mro`: resolve the method, check the arity, and only then run the
body (the `save` model above).  A `TypeError` aborts before any submission
work happens. -/
def callSave (mro : List (List (String × PyFunction))) (nargs : Nat)
    (new_claims : List Claim) (dry_run : Bool) (outcome : SubmitOutcome)
    (redis : RedisState) : Except PyError SaveResult :=
  match mroLookup mro "save" with
  | none => Except.error PyError.attributeError
  | some f =>
    if accepts f nargs then
      Except.ok (save new_claims dry_run outcome redis)
    else Except.error PyError.typeError

end PyModel

/-! ## Pipeline assemblies

The remaining per-bot statement-building sequences, and a small generic
form: every builder of this repository is "guarded" — it emits a fixed
list of statements (independent of the index) when its property is absent
and nothing when it is present — so a pipeline is a run of (property,
emitted-statements) pairs against one index.  The guarantee each pipeline
needs for the idempotence claim is proved once over this form. -/

/-- The statement-building portion of `YouTubeBot.treat_page` (youtube.py
lines 102–106): video-id, published-in, creator and source builders
followed by the copyright-license qualifier-completion pass. -/
def YouTubeBot.build_claims (detect : String → Option String)
    (existing : ClaimCollection) (videoId : String)
    (published : Int × Nat × Nat) (channelTitle : String)
    (channelHandle : Option String) (channelId : String)
    (video_title : String) : List Claim :=
  YouTubeBot.create_youtube_video_id_claim existing videoId
  ++ YouTubeBot.create_published_in_claim existing published
  ++ YouTubeBot.create_creator_claim existing channelTitle channelHandle
       channelId
  ++ YouTubeBot.create_source_claim existing
       ("https://www.youtube.com/watch?v=" ++ videoId)
  ++ YouTubeBot.process_copyright_license_claim detect existing video_title
       channelTitle

/-- The statement-building portion of
`PortableAntiquitiesSchemeBot.treat_page` (pas.py lines 98–115): the image
id statement and the published-in statement with its optional date
qualifier. -/
def PasBot.build_claims (existing : ClaimCollection) (image_id : String)
    (date : Option (Int × Nat × Nat)) : List Claim :=
  create_id_claim existing
      WikidataProperty.PortableAntiquitiesSchemeImageID image_id
  ++ create_published_in_claim existing
      WikidataEntity.PortableAntiquitiesSchemeDatabase date

/-- The inception contribution of `UsaceBot.treat_page` (usace.py line
97–98): the statement is appended only when the date parameter exists and
`process_inception_claim` produces one. -/
def UsaceBot.inception_component (existing : ClaimCollection)
    (date : Option String) (date_templates : List Template) : List Claim :=
  match date with
  | some d =>
    (match UsaceBot.process_inception_claim existing d date_templates with
     | some c => [c]
     | none => [])
  | none => []

/-- The source contribution of `UsaceBot.treat_page` (usace.py lines
100–101). -/
def UsaceBot.source_component (existing : ClaimCollection)
    (source : String) : List Claim :=
  match UsaceBot.process_source_claim existing source with
  | some c => [c]
  | none => []

/-- The statement-building portion of `UsaceBot.treat_page` (usace.py
lines 91–101). -/
def UsaceBot.build_claims (existing : ClaimCollection)
    (date : Option String) (date_templates : List Template)
    (source : String) : List Claim :=
  UsaceBot.inception_component existing date date_templates
  ++ UsaceBot.source_component existing source

/-! ## Concrete inputs used by witnesses and counterexamples -/

/-- An existing-statement index already carrying every property the
builders could emit (used to witness the no-duplication guards). -/
def fixExisting : ClaimCollection :=
  [{ prop := WikidataProperty.Creator, value := ClaimValue.somevalue,
     id := some "M7$a" },
   { prop := WikidataProperty.Depicts, value := ClaimValue.item "Q42",
     id := some "M7$b" },
   { prop := WikidataProperty.Inception, value := ClaimValue.time 2020 1 1 11,
     id := some "M7$c" },
   { prop := WikidataProperty.PublishedIn,
     value := ClaimValue.item WikidataEntity.Flickr, id := some "M7$d" },
   { prop := WikidataProperty.SourceOfFile,
     value := ClaimValue.item WikidataEntity.FileAvailableOnInternet,
     id := some "M7$e" },
   { prop := WikidataProperty.FlickrPhotoId, value := ClaimValue.str "5",
     id := some "M7$f" },
   { prop := WikidataProperty.CoordinatesOfThePointOfView,
     value := ClaimValue.coord 1 2 (1 / 1000), id := some "M7$g" },
   { prop := WikidataProperty.YouTubeVideoId, value := ClaimValue.str "abc",
     id := some "M7$h" },
   { prop := WikidataProperty.CopyrightLicense,
     value := ClaimValue.item "Q20007257", id := some "M7$i" }]

/-- A page whose review template is spelled in a different letter case than
the candidate name (used against the case-normalization wording of the
extraction claim). -/
def fixLowercaseWikicode : List Template :=
  [{ name := "inaturalistreview", params := [("status", " pass ")] }]

/-- A well-formed review template match. -/
def fixReviewWikicode : List Template :=
  [{ name := "iNaturalistReview", params := [("status", " pass ")] }]

/-- A page carrying a complete, valid pair of iNaturalist templates. -/
def fixINatWikicode : List Template :=
  [{ name := "iNaturalistReview",
     params := [("status", "pass"),
                ("sourceurl", "https://www.inaturalist.org/photos/12345")] },
   { name := "iNaturalist", params := [("id", "678")] }]

/-- A page whose review status is not an accepted one. -/
def fixINatBadStatus : List Template :=
  [{ name := "iNaturalistReview", params := [("status", "fail")] }]

/-- A single valid PAS download link. -/
def fixPasUrls : List String :=
  ["https://finds.org.uk/database/ajax/download/id/123"]

/-- A taxon query fixture: id 5 resolves uniquely, id 7 ambiguously, all
others to nothing. -/
def fixTaxaQuery : Nat → List String :=
  fun n => if n = 5 then ["Q55"] else if n = 7 then ["Q71", "Q72"] else []

/-- A user query fixture resolving nothing. -/
def fixUserQuery : String → List String :=
  fun _ => []

/-- A language-detection fixture always detecting English. -/
def fixDetect : String → Option String :=
  fun _ => some "en"

/-- A photo fixture for the idempotence witness runs. -/
def fixPhoto : INaturalistBot.PhotoData :=
  { id := "12345", observation_id := "678",
    creator := some { id := "99", name := some "Jane Doe", orcid := none },
    depicts := some "Q55" }

/-! ## Helper lemmas -/

theorem mem_redisSet_self (r : RedisState) (key : String) :
    key ∈ redisSet r key := by
  unfold redisSet
  split
  · assumption
  · exact List.mem_cons_self _ _

theorem addQualifier_prop (c : Claim) (q : String × ClaimValue) :
    (addQualifier c q).prop = c.prop := rfl

theorem addQualifier_id (c : Claim) (q : String × ClaimValue) :
    (addQualifier c q).id = c.id := rfl

theorem addQualifier_value (c : Claim) (q : String × ClaimValue) :
    (addQualifier c q).value = c.value := rfl

theorem lookup_snd_mem {α β : Type} [BEq α] :
    ∀ (l : List (α × β)) (a : α) (q : β),
      l.lookup a = some q → q ∈ l.map Prod.snd := by
  intro l
  induction l with
  | nil => intro a q h; simp [List.lookup] at h
  | cons p t ih =>
    intro a q h
    rcases p with ⟨k, v⟩
    rw [List.lookup] at h
    rcases hb : a == k with _ | _
    · rw [hb] at h
      exact List.mem_cons_of_mem _ (ih a q h)
    · rw [hb] at h
      simp at h
      simp [h]

theorem filter_eq_nil_of_find?_eq_none {α : Type} (p : α → Bool) (l : List α)
    (h : l.find? p = none) : l.filter p = [] := by
  induction l with
  | nil => rfl
  | cons a t ih =>
    rw [List.find?] at h
    rcases hp : p a with _ | _
    · rw [hp] at h
      simp [List.filter, hp, ih h]
    · rw [hp] at h
      simp at h

theorem filter_eq_cons_of_find?_eq_some {α : Type} (p : α → Bool) (l : List α)
    (t : α) (h : l.find? p = some t) :
    ∃ rest, l.filter p = t :: rest := by
  induction l with
  | nil => simp [List.find?] at h
  | cons a tl ih =>
    rw [List.find?] at h
    rcases hp : p a with _ | _
    · rw [hp] at h
      rcases ih h with ⟨rest, hr⟩
      exact ⟨rest, by simp [List.filter, hp, hr]⟩
    · rw [hp] at h
      simp at h
      subst h
      exact ⟨tl.filter p, by simp [List.filter, hp]⟩

theorem findParam_eq_none (t : Template) (ps : List String)
    (h : ps.find? (fun p => t.hasParam p) = none) : findParam t ps = none := by
  induction ps with
  | nil => rfl
  | cons p rest ih =>
    rw [List.find?] at h
    rcases hp : t.hasParam p with _ | _
    · rw [hp] at h
      simp [findParam, hp, ih h]
    · rw [hp] at h
      simp at h

theorem findParam_eq_some (t : Template) (ps : List String) (p : String)
    (v : String) (hf : ps.find? (fun p => t.hasParam p) = some p)
    (hv : t.get p = some v) : findParam t ps = some v := by
  induction ps with
  | nil => simp [List.find?] at hf
  | cons q rest ih =>
    rw [List.find?] at hf
    rcases hp : t.hasParam q with _ | _
    · rw [hp] at hf
      simp [findParam, hp, ih hf]
    · rw [hp] at hf
      simp at hf
      subst hf
      simp [findParam, hp, hv]

theorem retrieve_none_mem (wc : List Template) (ts ps : List String)
    (key : String) (rd : RedisState)
    (h : (retrieve_template_data wc ts ps key rd).1 = none) :
    key ∈ (retrieve_template_data wc ts ps key rd).2 := by
  unfold retrieve_template_data at h ⊢
  rcases hf : wc.filter (fun t => ts.contains (pyStrip t.name)) with _ | ⟨t, rest⟩
  · simp only [hf]
    exact mem_redisSet_self rd key
  · simp only [hf] at h ⊢
    rcases hp : findParam t ps with _ | v
    · simp only [hp]
      exact mem_redisSet_self rd key
    · simp only [hp] at h
      exact absurd h (by simp)

theorem inat_fetch_none_mem (wc : List Template) (key : String)
    (fetch : FetchOutcome INaturalistBot.Observation)
    (tq : Nat → List String) (tc : INaturalistBot.TaxaCache)
    (redis : RedisState)
    (h : (INaturalistBot.fetch_observation_data wc key fetch tq tc
        redis).2.2 = none) :
    key ∈ (INaturalistBot.fetch_observation_data wc key fetch tq tc
        redis).1 := by
  unfold INaturalistBot.fetch_observation_data at h ⊢
  rcases h1 : retrieve_template_data wc ["iNaturalist", "inaturalist"]
      ["id", "1"] key redis with ⟨o1, r1⟩
  rcases o1 with _ | oid
  · simp only [h1] at h ⊢
    have := retrieve_none_mem wc ["iNaturalist", "inaturalist"] ["id", "1"]
      key redis
    rw [h1] at this
    exact this rfl
  · simp only [h1] at h ⊢
    rcases h2 : retrieve_template_data wc
        ["iNaturalistReview", "iNaturalistreview"] ["sourceurl"] key r1 with
      ⟨o2, r2⟩
    rcases o2 with _ | purl
    · simp only [h2] at h ⊢
      have := retrieve_none_mem wc
        ["iNaturalistReview", "iNaturalistreview"] ["sourceurl"] key r1
      rw [h2] at this
      exact this rfl
    · simp only [h2] at h ⊢
      rcases h3 : INaturalistBot.inat_url_photo_id purl with _ | pid
      · simp only [h3]
        exact mem_redisSet_self r2 key
      · simp only [h3] at h ⊢
        rcases fetch with obs | _
        · by_cases h4 : pid ∈ obs.observation_photos
          · exfalso
            simp [h4] at h
          · simp only [h4]
            simp [h4]
            exact mem_redisSet_self r2 key
        · exact mem_redisSet_self r2 key

theorem create_location_claim_none (existing : ClaimCollection) :
    FlickrBot.create_location_claim existing none = [] := by
  unfold FlickrBot.create_location_claim
  split <;> rfl

theorem create_location_claim_drop (existing : ClaimCollection)
    (loc : FlickrBot.LocationInfo)
    (h : FlickrBot.wikidata_precision loc.accuracy = none) :
    FlickrBot.create_location_claim existing (some loc) = [] := by
  unfold FlickrBot.create_location_claim
  split
  · rfl
  · by_cases h0 : loc.latitude = 0 ∧ loc.longitude = 0
    · simp [h0]
    · simp [h0, h]

theorem create_inception_claim_none (existing : ClaimCollection) :
    FlickrBot.create_inception_claim existing none = [] := rfl

theorem create_inception_claim_drop (existing : ClaimCollection)
    (dt : FlickrBot.DateTaken)
    (h : FlickrBot.precision_map.lookup dt.granularity = none) :
    FlickrBot.create_inception_claim existing (some dt) = [] := by
  simp only [FlickrBot.create_inception_claim]
  split
  · rfl
  · simp [h]

theorem hook_creator_target_prop (photo : INaturalistBot.PhotoData)
    (uq : String → List String) (c : Claim) :
    (applyHook (INaturalistBot.hook_creator_target photo uq) c).prop
      = c.prop := by
  unfold applyHook INaturalistBot.hook_creator_target
  rcases hcr : photo.creator with _ | cr
  · rfl
  · simp only [hcr]
    rcases hq : uq cr.id with _ | ⟨x, _ | ⟨y, t⟩⟩ <;> simp [hq]

theorem hook_creator_claim_prop (photo : INaturalistBot.PhotoData)
    (c : Claim) :
    (applyHook (INaturalistBot.hook_creator_claim photo) c).prop
      = c.prop := by
  unfold applyHook INaturalistBot.hook_creator_claim
  rcases hcr : photo.creator with _ | cr
  · rfl
  · simp only [hcr]
    rcases ho : cr.orcid with _ | o
    · simp [addQualifier]
    · by_cases ho2 : o = "" <;> simp [ho2, addQualifier]

theorem inat_creator_emit (photo : INaturalistBot.PhotoData)
    (uq : String → List String) (ex : ClaimCollection)
    (a u : Option String)
    (h : hasProp ex WikidataProperty.Creator = false) :
    ∃ c, create_creator_claim (INaturalistBot.hook_creator_target photo uq)
        (INaturalistBot.hook_creator_claim photo) ex a u = [c]
      ∧ c.prop = WikidataProperty.Creator := by
  unfold create_creator_claim
  simp only [h, Bool.false_eq_true, reduceIte]
  refine ⟨_, rfl, ?_⟩
  rw [hook_creator_claim_prop]
  rcases a with _ | a'
  · rcases u with _ | u'
    · rw [hook_creator_target_prop]
    · by_cases hu : u' = "" <;>
        simp [hu, addQualifier, hook_creator_target_prop]
  · rcases u with _ | u'
    · by_cases ha : a' = "" <;>
        simp [ha, addQualifier, hook_creator_target_prop]
    · by_cases ha : a' = "" <;> by_cases hu : u' = "" <;>
        simp [ha, hu, addQualifier, hook_creator_target_prop]

theorem create_depicts_claim_nf (hd : Claim → Option Claim)
    (ex : ClaimCollection) (d : Option String) :
    create_depicts_claim hd ex d
      = if hasProp ex WikidataProperty.Depicts then []
        else create_depicts_claim hd [] d := by
  rcases d with _ | dv
  · simp [create_depicts_claim]
  · by_cases h : hasProp ex WikidataProperty.Depicts <;>
      simp [create_depicts_claim, h, hasProp]

theorem create_creator_claim_nf (ht hc : Claim → Option Claim)
    (ex : ClaimCollection) (a u : Option String) :
    create_creator_claim ht hc ex a u
      = if hasProp ex WikidataProperty.Creator then []
        else create_creator_claim ht hc [] a u := by
  by_cases h : hasProp ex WikidataProperty.Creator <;>
    simp [create_creator_claim, h, hasProp]

theorem inat_depicts_claim_props (photo : INaturalistBot.PhotoData)
    (d : Option String) :
    ∀ c ∈ create_depicts_claim (INaturalistBot.hook_depicts_claim photo)
        [] d, c.prop = WikidataProperty.Depicts := by
  intro c hc
  rcases d with _ | dv
  · simp [create_depicts_claim] at hc
  · simp [create_depicts_claim, hasProp] at hc
    rw [hc]
    unfold applyHook INaturalistBot.hook_depicts_claim
    rcases hd : photo.depicts with _ | x <;> simp [hd]

theorem inat_creator_claim_props (photo : INaturalistBot.PhotoData)
    (uq : String → List String) (a u : Option String) :
    ∀ c ∈ create_creator_claim
        (INaturalistBot.hook_creator_target photo uq)
        (INaturalistBot.hook_creator_claim photo) [] a u,
      c.prop = WikidataProperty.Creator := by
  intro c hc
  obtain ⟨c0, he, hp⟩ := inat_creator_emit photo uq [] a u rfl
  rw [he] at hc
  simp at hc
  rw [hc]
  exact hp

theorem process_copyright_qualifier_only (detect : String → Option String)
    (ex : ClaimCollection) (vt ct : String) :
    (YouTubeBot.process_copyright_license_claim detect ex vt ct).length ≤ 1
    ∧ ∀ c' ∈ YouTubeBot.process_copyright_license_claim detect ex vt ct,
        ∃ c ∈ ex, c.prop = WikidataProperty.CopyrightLicense ∧ c'.id = c.id
          ∧ c'.prop = c.prop ∧ c'.value = c.value
          ∧ ∃ extra, c'.qualifiers = c.qualifiers ++ extra := by
  unfold YouTubeBot.process_copyright_license_claim
  rcases hg : getProp ex WikidataProperty.CopyrightLicense with
    _ | ⟨c, _ | ⟨c2, r⟩⟩
  · simp
  · have hcmem : c ∈ ex ∧ c.prop = WikidataProperty.CopyrightLicense := by
      have h0 : c ∈ getProp ex WikidataProperty.CopyrightLicense := by
        rw [hg]; exact List.mem_cons_self _ _
      unfold getProp at h0
      have h1 := List.mem_filter.mp h0
      exact ⟨h1.1, by simpa using h1.2⟩
    by_cases ht : qualifierHasProp c WikidataProperty.Title
    · by_cases ha : qualifierHasProp c WikidataProperty.AuthorNameString
      · simp [ht, ha]
      · simp only [ht, ha, if_true, if_false, Bool.false_eq_true,
          reduceIte]
        refine ⟨by simp, ?_⟩
        intro c' hc'
        simp only [List.mem_singleton] at hc'
        subst hc'
        exact ⟨c, hcmem.1, hcmem.2, rfl, rfl, rfl, ⟨_, rfl⟩⟩
    · rcases hd : detect vt with _ | lang
      · by_cases ha : qualifierHasProp c WikidataProperty.AuthorNameString
        · simp [ht, hd, ha]
        · simp only [ht, hd, ha, Bool.false_eq_true, reduceIte]
          refine ⟨by simp, ?_⟩
          intro c' hc'
          simp only [List.mem_singleton] at hc'
          subst hc'
          exact ⟨c, hcmem.1, hcmem.2, rfl, rfl, rfl, ⟨_, rfl⟩⟩
      · by_cases ha : qualifierHasProp
            (addQualifier c (WikidataProperty.Title,
              ClaimValue.mono vt lang)) WikidataProperty.AuthorNameString
        · simp only [ht, hd, ha, Bool.false_eq_true, reduceIte]
          refine ⟨by simp, ?_⟩
          intro c' hc'
          simp only [List.mem_singleton] at hc'
          subst hc'
          exact ⟨c, hcmem.1, hcmem.2, rfl, rfl, rfl, ⟨_, rfl⟩⟩
        · simp only [ht, hd, ha, Bool.false_eq_true, reduceIte]
          refine ⟨by simp, ?_⟩
          intro c' hc'
          simp only [List.mem_singleton] at hc'
          subst hc'
          refine ⟨c, hcmem.1, hcmem.2, rfl, rfl, rfl,
            ⟨[(WikidataProperty.Title, ClaimValue.mono vt lang),
              (WikidataProperty.AuthorNameString, ClaimValue.str ct)], ?_⟩⟩
          simp [addQualifier]
  · simp

/-! ## Claim theorems -/

/-- C5: in the accuracy → precision table of
`FlickrBot.create_location_claim` (flickr.py lines 224–257), level 16 maps
to the smallest tabulated precision value and level 1 to the largest
(every tabulated value lies between them); an accuracy outside the table
(`KeyError`, caught by the source) drops only the geolocation statement:
no exception escapes, and the rest of the record's builders produce
exactly what they produce without a location. -/
theorem c5_accuracy_precision_mapping :
    (FlickrBot.wikidata_precision 16 = some (1 / 100000)
      ∧ FlickrBot.wikidata_precision 1 = some (1 / 10))
    ∧ (∀ (a : Int) (q : ℚ), FlickrBot.wikidata_precision a = some q →
        (1 : ℚ) / 100000 ≤ q ∧ q ≤ 1 / 10)
    ∧ (∀ (existing : ClaimCollection) (loc : FlickrBot.LocationInfo),
        FlickrBot.wikidata_precision loc.accuracy = none →
          FlickrBot.create_location_claim existing (some loc) = [])
    ∧ (∀ (existing : ClaimCollection) (photo : FlickrBot.SinglePhoto)
        (loc : FlickrBot.LocationInfo), photo.location = some loc →
          FlickrBot.wikidata_precision loc.accuracy = none →
            FlickrBot.build_claims existing photo
              = FlickrBot.build_claims existing
                  { photo with location := none }) := by
  refine ⟨⟨rfl, rfl⟩, ?_, ?_, ?_⟩
  · intro a q h
    have hm := lookup_snd_mem _ _ _ h
    simp only [FlickrBot.wikidata_precision_table, List.map_cons,
      List.map_nil, List.mem_cons, List.not_mem_nil, or_false] at hm
    rcases hm with rfl | rfl | rfl | rfl | rfl | rfl | rfl | rfl | rfl |
      rfl | rfl | rfl | rfl | rfl | rfl | rfl <;> norm_num
  · intro existing loc h
    exact create_location_claim_drop existing loc h
  · intro existing photo loc hloc h
    rcases photo with ⟨pid, owner, url, plocation, pdate, pposted⟩
    simp only at hloc
    subst hloc
    simp only [FlickrBot.build_claims,
      create_location_claim_drop existing loc h,
      create_location_claim_none existing]

/-- Witness for C5: accuracy level 0 is outside the table, and the
geolocation builder drops the statement there; the bound conjunct applies
to the tabulated level-16 value. -/
theorem c5_accuracy_precision_mapping_witness :
    FlickrBot.create_location_claim []
      (some { latitude := 1, longitude := 2, accuracy := 0 }) = []
    ∧ ((1 : ℚ) / 100000 ≤ 1 / 100000 ∧ (1 : ℚ) / 100000 ≤ 1 / 10) :=
  ⟨c5_accuracy_precision_mapping.2.2.1 []
      { latitude := 1, longitude := 2, accuracy := 0 } rfl,
   c5_accuracy_precision_mapping.2.1 16 (1 / 100000)
      c5_accuracy_precision_mapping.1.1⟩

/-- C4: the inception builder of `FlickrBot` (flickr.py lines 264–294)
maps granularity `"second"` to day precision (11) keeping month and day,
`"month"` to month precision (10) zeroing the day, `"year"` to year
precision (9) zeroing month and day, and `"circa"` — the granularity label
flickr_photos_api uses for approximate dates, the spec's `approximate` —
to year precision with zeroed month and day plus the sourcing-circumstances
"circa" qualifier; any granularity outside the map drops only the
inception statement, and the remaining builders of the record produce
exactly what they produce without a capture date. -/
theorem c4_inception_granularity_mapping (existing : ClaimCollection)
    (y : Int) (m d : Nat)
    (h : hasProp existing WikidataProperty.Inception = false) :
    (FlickrBot.create_inception_claim existing
        (some { year := y, month := m, day := d, granularity := "second" })
      = [{ prop := WikidataProperty.Inception,
           value := ClaimValue.time y m d FlickrBot.PRECISION_day }])
    ∧ (FlickrBot.create_inception_claim existing
        (some { year := y, month := m, day := d, granularity := "month" })
      = [{ prop := WikidataProperty.Inception,
           value := ClaimValue.time y m 0 FlickrBot.PRECISION_month }])
    ∧ (FlickrBot.create_inception_claim existing
        (some { year := y, month := m, day := d, granularity := "year" })
      = [{ prop := WikidataProperty.Inception,
           value := ClaimValue.time y 0 0 FlickrBot.PRECISION_year }])
    ∧ (FlickrBot.create_inception_claim existing
        (some { year := y, month := m, day := d, granularity := "circa" })
      = [{ prop := WikidataProperty.Inception,
           value := ClaimValue.time y 0 0 FlickrBot.PRECISION_year,
           qualifiers := [(WikidataProperty.SourcingCircumstances,
                           ClaimValue.item WikidataEntity.Circa)] }])
    ∧ (∀ g, FlickrBot.precision_map.lookup g = none →
        FlickrBot.create_inception_claim existing
            (some { year := y, month := m, day := d, granularity := g }) = []
        ∧ ∀ photo : FlickrBot.SinglePhoto,
            photo.date_taken
              = some { year := y, month := m, day := d, granularity := g } →
            FlickrBot.build_claims existing photo
              = FlickrBot.build_claims existing
                  { photo with date_taken := none }) := by
  refine ⟨?_, ?_, ?_, ?_, ?_⟩
  · simp [FlickrBot.create_inception_claim, h, FlickrBot.precision_map,
      FlickrBot.PRECISION_day, FlickrBot.PRECISION_month,
      FlickrBot.PRECISION_year, List.lookup]
  · simp [FlickrBot.create_inception_claim, h, FlickrBot.precision_map,
      FlickrBot.PRECISION_day, FlickrBot.PRECISION_month,
      FlickrBot.PRECISION_year, List.lookup]
  · simp [FlickrBot.create_inception_claim, h, FlickrBot.precision_map,
      FlickrBot.PRECISION_day, FlickrBot.PRECISION_month,
      FlickrBot.PRECISION_year, List.lookup]
  · simp [FlickrBot.create_inception_claim, h, FlickrBot.precision_map,
      FlickrBot.PRECISION_day, FlickrBot.PRECISION_month,
      FlickrBot.PRECISION_year, List.lookup, addQualifier]
  · intro g hg
    have hdrop := create_inception_claim_drop existing
      { year := y, month := m, day := d, granularity := g } hg
    constructor
    · exact hdrop
    · intro photo hdt
      rcases photo with ⟨pid, owner, url, plocation, pdate, pposted⟩
      simp only at hdt
      subst hdt
      simp only [FlickrBot.build_claims, hdrop,
        create_inception_claim_none existing]

/-- Witness for C4 at concrete date components and the out-of-map
granularity string `"unknown"`. -/
theorem c4_inception_granularity_mapping_witness :
    hasProp [] WikidataProperty.Inception = false
    ∧ FlickrBot.create_inception_claim []
        (some { year := 2021, month := 7, day := 9, granularity := "year" })
      = [{ prop := WikidataProperty.Inception,
           value := ClaimValue.time 2021 0 0 FlickrBot.PRECISION_year }]
    ∧ FlickrBot.create_inception_claim []
        (some { year := 2021, month := 7, day := 9,
                granularity := "unknown" }) = [] :=
  ⟨rfl,
   (c4_inception_granularity_mapping [] 2021 7 9 rfl).2.2.1,
   (((c4_inception_granularity_mapping [] 2021 7 9 rfl).2.2.2.2)
     "unknown" rfl).1⟩

/-- C6: every location input whose latitude and longitude both equal 0.0
produces no geolocation statement, for every accuracy value (flickr.py
lines 171–188: the null-coordinate sentinel is discarded before the
accuracy lookup). -/
theorem c6_null_coordinate_suppression (existing : ClaimCollection)
    (loc : FlickrBot.LocationInfo) (hlat : loc.latitude = 0)
    (hlon : loc.longitude = 0) :
    FlickrBot.create_location_claim existing (some loc) = [] := by
  unfold FlickrBot.create_location_claim
  split
  · rfl
  · simp [hlat, hlon]

/-- Witness for C6 at a concrete null-coordinate location with the finest
accuracy level. -/
theorem c6_null_coordinate_suppression_witness :
    FlickrBot.create_location_claim []
      (some { latitude := 0, longitude := 0, accuracy := 16 }) = [] :=
  c6_null_coordinate_suppression []
    { latitude := 0, longitude := 0, accuracy := 16 } rfl rfl

/-- C1: every statement builder — the `BaseBot` ones and their per-platform
counterparts — checks the existing-statement index first and emits nothing
when the property is already present; the only exception,
`YouTubeBot.process_copyright_license_claim`, emits at most the single
pre-existing copyright-license statement itself (same statement id, same
main value, with its qualifier list only extended), never a second
top-level statement. -/
theorem c1_no_duplicate_statements :
    (∀ ex p v, hasProp ex p = true → create_id_claim ex p v = [])
    ∧ (∀ ht hc ex a u, hasProp ex WikidataProperty.Creator = true →
        create_creator_claim ht hc ex a u = [])
    ∧ (∀ hd ex d, hasProp ex WikidataProperty.Depicts = true →
        create_depicts_claim hd ex d = [])
    ∧ (∀ ex w g, hasProp ex WikidataProperty.Inception = true →
        create_inception_claim ex w g = [])
    ∧ (∀ ex pi dp, hasProp ex WikidataProperty.PublishedIn = true →
        create_published_in_claim ex pi dp = [])
    ∧ (∀ hs ex s op, hasProp ex WikidataProperty.SourceOfFile = true →
        create_source_claim hs ex s op = [])
    ∧ (∀ ex v, hasProp ex WikidataProperty.FlickrPhotoId = true →
        FlickrBot.create_id_claim ex v = [])
    ∧ (∀ ex u, hasProp ex WikidataProperty.Creator = true →
        FlickrBot.create_creator_claim ex u = [])
    ∧ (∀ ex l, hasProp ex WikidataProperty.CoordinatesOfThePointOfView
          = true → FlickrBot.create_location_claim ex l = [])
    ∧ (∀ ex dt, hasProp ex WikidataProperty.Inception = true →
        FlickrBot.create_inception_claim ex dt = [])
    ∧ (∀ ex dp, hasProp ex WikidataProperty.PublishedIn = true →
        FlickrBot.create_published_in_claim ex dp = [])
    ∧ (∀ ex v, hasProp ex WikidataProperty.YouTubeVideoId = true →
        YouTubeBot.create_youtube_video_id_claim ex v = [])
    ∧ (∀ ex d, hasProp ex WikidataProperty.PublishedIn = true →
        YouTubeBot.create_published_in_claim ex d = [])
    ∧ (∀ ex t h i, hasProp ex WikidataProperty.Creator = true →
        YouTubeBot.create_creator_claim ex t h i = [])
    ∧ (∀ ex s, hasProp ex WikidataProperty.SourceOfFile = true →
        YouTubeBot.create_source_claim ex s = [])
    ∧ (∀ ex d dts, hasProp ex WikidataProperty.Inception = true →
        UsaceBot.process_inception_claim ex d dts = none)
    ∧ (∀ ex s, hasProp ex WikidataProperty.SourceOfFile = true →
        UsaceBot.process_source_claim ex s = none)
    ∧ (∀ detect ex vt ct,
        (YouTubeBot.process_copyright_license_claim detect ex vt
            ct).length ≤ 1
        ∧ ∀ c' ∈ YouTubeBot.process_copyright_license_claim detect ex vt ct,
            ∃ c ∈ ex, c.prop = WikidataProperty.CopyrightLicense
              ∧ c'.id = c.id ∧ c'.prop = c.prop ∧ c'.value = c.value
              ∧ ∃ extra, c'.qualifiers = c.qualifiers ++ extra) := by
  refine ⟨?_, ?_, ?_, ?_, ?_, ?_, ?_, ?_, ?_, ?_, ?_, ?_, ?_, ?_, ?_, ?_,
    ?_, ?_⟩
  · intro ex p v h
    simp [create_id_claim, h]
  · intro ht hc ex a u h
    simp [create_creator_claim, h]
  · intro hd ex d h
    cases d
    · rfl
    · simp [create_depicts_claim, h]
  · intro ex w g h
    simp [create_inception_claim, h]
  · intro ex pi dp h
    simp [create_published_in_claim, h]
  · intro hs ex s op h
    simp [create_source_claim, h]
  · intro ex v h
    simp [FlickrBot.create_id_claim, h]
  · intro ex u h
    cases u
    · rfl
    · simp [FlickrBot.create_creator_claim, h]
  · intro ex l h
    simp [FlickrBot.create_location_claim, h]
  · intro ex dt h
    cases dt
    · rfl
    · simp [FlickrBot.create_inception_claim, h]
  · intro ex dp h
    simp [FlickrBot.create_published_in_claim, h]
  · intro ex v h
    simp [YouTubeBot.create_youtube_video_id_claim, h]
  · intro ex d h
    simp [YouTubeBot.create_published_in_claim, h]
  · intro ex t hh i h
    simp [YouTubeBot.create_creator_claim, h]
  · intro ex s h
    simp [YouTubeBot.create_source_claim, h]
  · intro ex d dts h
    simp [UsaceBot.process_inception_claim, h]
  · intro ex s h
    simp [UsaceBot.process_source_claim, h]
  · intro detect ex vt ct
    exact process_copyright_qualifier_only detect ex vt ct

/-- Witness for C1 against an index already carrying every relevant
property: each builder emits nothing, and the qualifier-completion pass
emits at most one statement. -/
theorem c1_no_duplicate_statements_witness :
    create_id_claim fixExisting WikidataProperty.FlickrPhotoId "9" = []
    ∧ create_creator_claim default_hook_creator_target default_hook
        fixExisting (some "Jane") none = []
    ∧ create_depicts_claim default_hook fixExisting (some "Q42") = []
    ∧ FlickrBot.create_location_claim fixExisting
        (some { latitude := 1, longitude := 2, accuracy := 16 }) = []
    ∧ UsaceBot.process_source_claim fixExisting "x" = none
    ∧ (YouTubeBot.process_copyright_license_claim fixDetect fixExisting
        "title" "channel").length ≤ 1 :=
  ⟨c1_no_duplicate_statements.1 fixExisting WikidataProperty.FlickrPhotoId
      "9" rfl,
   c1_no_duplicate_statements.2.1 default_hook_creator_target default_hook
      fixExisting (some "Jane") none rfl,
   c1_no_duplicate_statements.2.2.1 default_hook fixExisting (some "Q42")
      rfl,
   c1_no_duplicate_statements.2.2.2.2.2.2.2.2.1 fixExisting
      (some { latitude := 1, longitude := 2, accuracy := 16 }) rfl,
   (c1_no_duplicate_statements.2.2.2.2.2.2.2.2.2.2.2.2.2.2.2.2.1)
      fixExisting "x" rfl,
   (c1_no_duplicate_statements.2.2.2.2.2.2.2.2.2.2.2.2.2.2.2.2.2 fixDetect
      fixExisting "title" "channel").1⟩

/-- C2 counterexample: a transient failure does set the fingerprint-cache
key.  On a page with valid review status, observation id and source URL,
the observation fetch of `INaturalistBot.fetch_observation_data` raising
any exception — the transient class: network error, timeout, rate limit,
malformed response — lands in the `except Exception` handler of
inaturalist.py lines 142–145, which calls `redis.set`; the PAS image fetch
(pas.py lines 64–67) behaves the same way.  The claim that transient
failures never set the key is therefore false at this input. -/
theorem c2_transient_failure_marks_cache :
    (INaturalistBot.treat_page_preprocess fixINatWikicode "key"
        FetchOutcome.exn fixTaxaQuery [] []).1 = ["key"]
    ∧ (PasBot.treat_page_preprocess fixPasUrls "key" FetchOutcome.exn
        FetchOutcome.exn "" []).1 = ["key"] :=
  ⟨rfl, rfl⟩

/-- C2 (amended): in the iNaturalist and PAS bots every path that abandons
the record before statement building sets the fingerprint key, and the
fetch-exception handlers set the key as well — including for transient
failures, contrary to the original claim (iNaturalist even proceeds to
build identifier statements after marking the key on a fetch exception,
because `self.photo` is assigned before the fetch). -/
theorem c2_cache_discipline (wc : List Template) (urls : List String)
    (key : String) (fetch : FetchOutcome INaturalistBot.Observation)
    (tq : Nat → List String) (tc : INaturalistBot.TaxaCache)
    (ifetch : FetchOutcome PasBot.PasImage) (hfetch : FetchOutcome String)
    (fh : String) (redis : RedisState) :
    ((INaturalistBot.treat_page_preprocess wc key fetch tq tc redis).2.2
        = none →
      key ∈ (INaturalistBot.treat_page_preprocess wc key fetch tq tc
          redis).1)
    ∧ (∀ oid r1 purl r2 pid,
        retrieve_template_data wc ["iNaturalist", "inaturalist"] ["id", "1"]
            key redis = (some oid, r1) →
        retrieve_template_data wc ["iNaturalistReview", "iNaturalistreview"]
            ["sourceurl"] key r1 = (some purl, r2) →
        INaturalistBot.inat_url_photo_id purl = some pid →
        key ∈ (INaturalistBot.fetch_observation_data wc key FetchOutcome.exn
            tq tc redis).1)
    ∧ ((PasBot.treat_page_preprocess urls key ifetch hfetch fh redis).2
          = false →
        key ∈ (PasBot.treat_page_preprocess urls key ifetch hfetch fh
            redis).1)
    ∧ (∀ iid, PasBot.collect_image_ids urls = [iid] →
        key ∈ (PasBot.treat_page_preprocess urls key FetchOutcome.exn hfetch
            fh redis).1) := by
  refine ⟨?_, ?_, ?_, ?_⟩
  · intro h
    unfold INaturalistBot.treat_page_preprocess at h ⊢
    rcases hs : retrieve_template_data wc
        ["iNaturalistReview", "iNaturalistreview"] ["status"] key redis with
      ⟨o, r⟩
    rcases o with _ | status
    · simp only [hs]
      have := retrieve_none_mem wc
        ["iNaturalistReview", "iNaturalistreview"] ["status"] key redis
      rw [hs] at this
      exact this rfl
    · simp only [hs] at h ⊢
      by_cases hst : status ∈ ["pass", "pass-change"]
      · rw [if_neg (not_not_intro hst)] at h ⊢
        exact inat_fetch_none_mem wc key fetch tq tc r h
      · rw [if_pos hst] at h ⊢
        exact mem_redisSet_self r key
  · intro oid r1 purl r2 pid h1 h2 h3
    unfold INaturalistBot.fetch_observation_data
    simp only [h1, h2, h3]
    exact mem_redisSet_self r2 key
  · intro h
    unfold PasBot.treat_page_preprocess at h ⊢
    rcases hc : PasBot.collect_image_ids urls with _ | ⟨iid, _ | ⟨i2, rest⟩⟩
    · exact mem_redisSet_self redis key
    · simp only [hc] at h ⊢
      rcases ifetch with img | _
      · by_cases he : img.id ≠ iid
        · simp only [if_pos he]
          exact mem_redisSet_self redis key
        · simp only [if_neg he] at h ⊢
          rcases hfetch with hsh | _
          · by_cases hh : hsh ≠ fh
            · simp only [if_pos hh]
              exact mem_redisSet_self redis key
            · simp only [if_neg hh] at h
              simp at h
          · exact mem_redisSet_self redis key
      · exact mem_redisSet_self redis key
    · exact mem_redisSet_self redis key
  · intro iid hc
    unfold PasBot.treat_page_preprocess
    simp only [hc]
    exact mem_redisSet_self redis key

/-- Witness for C2 (amended): a record with a rejected review status is
abandoned with the key set, and a PAS record whose single image id is found
gets the key set when the image fetch raises. -/
theorem c2_cache_discipline_witness :
    "key" ∈ (INaturalistBot.treat_page_preprocess fixINatBadStatus "key"
        FetchOutcome.exn fixTaxaQuery [] []).1
    ∧ "key" ∈ (PasBot.treat_page_preprocess fixPasUrls "key"
        FetchOutcome.exn FetchOutcome.exn "" []).1 :=
  ⟨(c2_cache_discipline fixINatBadStatus [] "key" FetchOutcome.exn
      fixTaxaQuery [] FetchOutcome.exn FetchOutcome.exn "" []).1 rfl,
   (c2_cache_discipline fixINatBadStatus fixPasUrls "key" FetchOutcome.exn
      fixTaxaQuery [] FetchOutcome.exn FetchOutcome.exn "" []).2.2.2 "123"
      rfl⟩

/-- C7 counterexample: the template-name match of
`BaseBot.retrieve_template_data` (bot.py line 136, `w.name.strip() in
templates`) is case-sensitive, not case-normalized: a page whose review
template is spelled `inaturalistreview` does not match the candidate
`iNaturalistReview` (the extractor marks the cache and returns nothing),
while the case-normalized match the claim describes would return the
status value.  The callers compensate by listing both case variants
explicitly (inaturalist.py lines 92, 120, 124). -/
theorem c7_case_sensitive_name_match :
    retrieve_template_data fixLowercaseWikicode ["iNaturalistReview"]
        ["status"] "k" [] = (none, ["k"])
    ∧ retrieve_template_data_case_normalized fixLowercaseWikicode
        ["iNaturalistReview"] ["status"] "k" [] = (some "pass", [])
    ∧ retrieve_template_data fixLowercaseWikicode ["iNaturalistReview"]
        ["status"] "k" []
      ≠ retrieve_template_data_case_normalized fixLowercaseWikicode
          ["iNaturalistReview"] ["status"] "k" [] :=
  ⟨rfl, rfl, by decide⟩

/-- C7 (amended): the extractor filters invocations by whitespace-trimmed,
case-sensitive name match against the candidate names, takes the first
matching invocation, returns the whitespace-trimmed value of the first
candidate parameter present on it (named or positional — positional
parameters carry numeric names), and returns `none` after marking the
fingerprint cache when no invocation matches or no candidate parameter is
present. -/
theorem c7_template_extraction (wikicode : List Template)
    (templates parameters : List String) (key : String) (redis : RedisState) :
    (wikicode.find? (fun t => templates.contains (pyStrip t.name)) = none →
      retrieve_template_data wikicode templates parameters key redis
        = (none, redisSet redis key))
    ∧ (∀ t, wikicode.find? (fun t => templates.contains (pyStrip t.name))
          = some t →
        (∀ p v, parameters.find? (fun p => t.hasParam p) = some p →
          t.get p = some v →
          retrieve_template_data wikicode templates parameters key redis
            = (some (pyStrip v), redis))
        ∧ (parameters.find? (fun p => t.hasParam p) = none →
          retrieve_template_data wikicode templates parameters key redis
            = (none, redisSet redis key))) := by
  constructor
  · intro h
    simp only [retrieve_template_data,
      filter_eq_nil_of_find?_eq_none _ _ h]
  · intro t ht
    rcases filter_eq_cons_of_find?_eq_some _ _ _ ht with ⟨rest, hr⟩
    constructor
    · intro p v hp hv
      simp only [retrieve_template_data, hr,
        findParam_eq_some t _ _ _ hp hv]
    · intro hnone
      simp only [retrieve_template_data, hr, findParam_eq_none t _ hnone]

/-- Witness for C7 on a concrete review template: the first candidate
parameter is found and its value is returned trimmed. -/
theorem c7_template_extraction_witness :
    retrieve_template_data fixReviewWikicode
        ["iNaturalistReview", "iNaturalistreview"] ["status"] "k" []
      = (some "pass", []) :=
  ((c7_template_extraction fixReviewWikicode
      ["iNaturalistReview", "iNaturalistreview"] ["status"] "k" []).2
    { name := "iNaturalistReview", params := [("status", " pass ")] }
    rfl).1 "status" " pass " rfl rfl

/-- C8: the taxon resolution walk of `INaturalistBot.determine_taxa`
(inaturalist.py lines 161–199) visits the ancestor ids in reverse stored
order, i.e. most-specific first (the stored `ancestor_ids` list is
least-specific first); at each id a cache hit is used directly and stops
the walk without querying; otherwise the knowledge base is queried for
items carrying the id: zero matches continue with the coarser rest, a
unique match is accepted, cached and stops, and more than one match stops
with no depicts target, no cache change, and no further id consulted (the
third result component lists exactly the ids that were queried). -/
theorem c8_taxon_resolution_walk (query : Nat → List String)
    (cache : INaturalistBot.TaxaCache) (taxa_id : Nat) (rest : List Nat) :
    (∀ obs : INaturalistBot.Observation, obs.quality_grade = "research" →
        obs.prefers_community_taxon ≠ some true →
        INaturalistBot.determine_taxa query cache obs
          = INaturalistBot.taxaWalk query cache
              obs.taxon_ancestor_ids.reverse)
    ∧ (∀ item, cache.lookup taxa_id = some item →
        INaturalistBot.taxaWalk query cache (taxa_id :: rest)
          = (some item, cache, []))
    ∧ (cache.lookup taxa_id = none → query taxa_id = [] →
        INaturalistBot.taxaWalk query cache (taxa_id :: rest)
          = ((INaturalistBot.taxaWalk query cache rest).1,
             (INaturalistBot.taxaWalk query cache rest).2.1,
             taxa_id :: (INaturalistBot.taxaWalk query cache rest).2.2))
    ∧ (∀ item, cache.lookup taxa_id = none → query taxa_id = [item] →
        INaturalistBot.taxaWalk query cache (taxa_id :: rest)
          = (some item, (taxa_id, item) :: cache, [taxa_id]))
    ∧ (∀ i1 i2 more, cache.lookup taxa_id = none →
        query taxa_id = i1 :: i2 :: more →
        INaturalistBot.taxaWalk query cache (taxa_id :: rest)
          = (none, cache, [taxa_id])) := by
  refine ⟨?_, ?_, ?_, ?_, ?_⟩
  · intro obs hq hc
    unfold INaturalistBot.determine_taxa
    rw [if_neg (not_not_intro hq), if_neg hc]
  · intro item hl
    simp only [INaturalistBot.taxaWalk, hl]
  · intro hl hq
    simp only [INaturalistBot.taxaWalk, hl, hq]
  · intro item hl hq
    simp only [INaturalistBot.taxaWalk, hl, hq]
  · intro i1 i2 more hl hq
    simp only [INaturalistBot.taxaWalk, hl, hq]

/-- Witness for C8: a cache hit stops without querying; a unique match at
the most-specific ancestor is accepted and cached; an ambiguous
most-specific ancestor (id 7) stops the walk with nothing even though the
coarser ancestor (id 5) would resolve uniquely. -/
theorem c8_taxon_resolution_walk_witness :
    INaturalistBot.taxaWalk fixTaxaQuery [(5, "Q55")] [5, 3]
        = (some "Q55", [(5, "Q55")], [])
    ∧ INaturalistBot.taxaWalk fixTaxaQuery [] [5, 3]
        = (some "Q55", [(5, "Q55")], [5])
    ∧ INaturalistBot.taxaWalk fixTaxaQuery [] [7, 5]
        = (none, [], [7]) :=
  ⟨(c8_taxon_resolution_walk fixTaxaQuery [(5, "Q55")] 5 [3]).2.1 "Q55" rfl,
   (c8_taxon_resolution_walk fixTaxaQuery [] 5 [3]).2.2.2.1 "Q55" rfl rfl,
   (c8_taxon_resolution_walk fixTaxaQuery [] 7 [5]).2.2.2.2 "Q71" "Q72" []
     rfl rfl⟩

/-- C3 counterexample: a successful submission of a non-empty delta leaves
the Redis cache untouched — `BaseBot.save` (bot.py lines 318–351) never
marks the fingerprint key, so the claim that success marks the key as done
is false at this input. -/
theorem c3_success_does_not_mark_cache :
    (save [{ prop := WikidataProperty.FlickrPhotoId,
             value := ClaimValue.str "123" }] false SubmitOutcome.success
        []).submitted = true
    ∧ (save [{ prop := WikidataProperty.FlickrPhotoId,
               value := ClaimValue.str "123" }] false SubmitOutcome.success
        []).redis = [] :=
  ⟨rfl, rfl⟩

/-- C3 (amended): `BaseBot.save` never changes the fingerprint cache — on
success as well as on failure — and logs a critical event exactly when a
non-empty delta is submitted outside dry-run mode and the submission
fails. -/
theorem c3_save_cache_and_logging (new_claims : List Claim) (dry_run : Bool)
    (outcome : SubmitOutcome) (redis : RedisState) :
    (save new_claims dry_run outcome redis).redis = redis
    ∧ ((save new_claims dry_run outcome redis).criticalLogged = true ↔
        new_claims ≠ [] ∧ dry_run = false ∧ outcome = SubmitOutcome.failure) := by
  unfold save
  rcases new_claims with _ | ⟨c, cs⟩
  · simp
  · cases dry_run
    · cases outcome <;> simp
    · simp

/-- C10: `BaseBot.save` takes no argument besides `self`, neither
`FlickrBot` nor `YouTubeBot` overrides it, and both `treat_page` methods
call `self.save(summary)` with one positional argument (flickr.py line 90,
youtube.py line 108) — so the call raises `TypeError` instead of running
the submission body. -/
theorem c10_save_call_type_error :
    PyModel.mroLookup PyModel.flickrMRO "save"
        = some { n_positional := 0, n_defaults := 0 }
    ∧ PyModel.mroLookup PyModel.youTubeMRO "save"
        = some { n_positional := 0, n_defaults := 0 }
    ∧ ∀ new_claims dry_run outcome redis,
        PyModel.callSave PyModel.flickrMRO 1 new_claims dry_run outcome redis
            = Except.error PyModel.PyError.typeError
        ∧ PyModel.callSave PyModel.youTubeMRO 1 new_claims dry_run outcome
            redis = Except.error PyModel.PyError.typeError := by
  refine ⟨by decide, by decide, ?_⟩
  intro new_claims dry_run outcome redis
  constructor <;> rfl

end Wikibots
